import Mathlib

/-!
# Verification of the sale_backend watch-processing pipeline

A shallow embedding of the watch-processing pipeline of the `sale_backend`
repository, together with theorems settling the specification claims.

Conventions of the embedding:

* JavaScript strings are modelled as `List Char`; database timestamps are
  modelled as `Nat` (hours since an arbitrary epoch).
* MySQL `UPDATE` assignment lists are evaluated left to right, each
  assignment seeing the values already updated by earlier assignments in
  the same statement (documented MySQL behaviour for single-table
  `UPDATE`); the embedding of `recordFailedScreenshotAttempt` follows
  that semantics.
* `JSON.parse` is modelled by a fuel-based recursive-descent parser over a
  practically complete JSON grammar (string escapes are consumed but kept
  raw, which is enough for every property proved here).
-/

namespace SaleBackend

/-- The `{` character, written with a hex escape. -/
def lbrace : Char := '\x7b'

/-- The `}` character, written with a hex escape. -/
def rbrace : Char := '\x7d'

/-! ## JavaScript string primitives used by `processUrls.js` -/

/-- Whitespace recognised by `String.prototype.trim` (restricted to the
ASCII whitespace that can occur in classifier output). -/
def isJsWs (c : Char) : Bool :=
  c = ' ' || c = '\t' || c = '\n' || c = '\r'

/-- `String.prototype.trim`: strip whitespace from both ends. -/
def jsTrim (s : List Char) : List Char :=
  ((s.dropWhile isJsWs).reverse.dropWhile isJsWs).reverse

/-- `String.prototype.indexOf` for a single-character search string:
index of the first occurrence, `-1` when absent. -/
def jsIndexOf (s : List Char) (c : Char) : Int :=
  match s with
  | [] => -1
  | d :: rest =>
      if d = c then 0
      else if jsIndexOf rest c = -1 then -1 else jsIndexOf rest c + 1

/-- Clamp a JS index argument into `[0, len]` (`ToIntegerOrInfinity`
followed by clamping, for integer arguments). -/
def clampIdx (len : Nat) (i : Int) : Nat :=
  min i.toNat len

/-- `String.prototype.substring`: clamps both arguments to the string
bounds and swaps them when `a > b`. -/
def jsSubstring (s : List Char) (a b : Int) : List Char :=
  (s.drop (min (clampIdx s.length a) (clampIdx s.length b))).take
    (max (clampIdx s.length a) (clampIdx s.length b)
      - min (clampIdx s.length a) (clampIdx s.length b))

/-! ## JSON values and a model of `JSON.parse` -/

/-- Parsed JSON values.  Numbers keep their integer part together with the
raw fraction and exponent digits. -/
inductive Json where
  | jnull : Json
  | jbool (b : Bool) : Json
  | jnum (i : Int) (frac : List Char) (ex : List Char) : Json
  | jstr (s : List Char) : Json
  | jarr (elems : List Json) : Json
  | jobj (fields : List (List Char × Json)) : Json

/-- JSON whitespace skipping. -/
def skipWs : List Char → List Char
  | [] => []
  | c :: rest => if isJsWs c then skipWs rest else c :: rest

/-- Body of a JSON string literal after the opening quote.  An escape
consumes the backslash and keeps the escaped character raw. -/
def parseStringBody : List Char → Option (List Char × List Char)
  | [] => none
  | '"' :: rest => some ([], rest)
  | '\\' :: c :: rest =>
      (parseStringBody rest).map (fun p => (c :: p.1, p.2))
  | '\\' :: [] => none
  | c :: rest =>
      (parseStringBody rest).map (fun p => (c :: p.1, p.2))

/-- Digits at the front of the input, with the rest. -/
def takeDigits (s : List Char) : List Char × List Char :=
  (s.takeWhile Char.isDigit, s.dropWhile Char.isDigit)

/-- Numeric value of a digit string. -/
def digitsToNat (ds : List Char) : Nat :=
  ds.foldl (fun acc c => acc * 10 + (c.toNat - ('0').toNat)) 0

/-- A JSON number at the front of the input. -/
def parseNumber (s : List Char) : Option (Json × List Char) :=
  let (neg, s1) :=
    match s with
    | c :: rest => if c = '-' then (true, rest) else (false, s)
    | [] => (false, s)
  let (ds, s2) := takeDigits s1
  if ds.isEmpty then none
  else
    let ival : Int := if neg then -(digitsToNat ds : Int) else (digitsToNat ds : Int)
    let (frac, s3) :=
      match s2 with
      | '.' :: rest =>
          let (fs, r) := takeDigits rest
          if fs.isEmpty then ([], s2) else (fs, r)
      | _ => ([], s2)
    let (ex, s4) :=
      match s3 with
      | c :: rest =>
          if c = 'e' || c = 'E' then
            match rest with
            | d :: rest2 =>
                if d = '+' || d = '-' then
                  let (es, r) := takeDigits rest2
                  if es.isEmpty then ([], s3) else (d :: es, r)
                else
                  let (es, r) := takeDigits rest
                  if es.isEmpty then ([], s3) else (es, r)
            | [] => ([], s3)
          else ([], s3)
      | [] => ([], s3)
    some (Json.jnum ival frac ex, s4)

mutual

/-- A JSON value at the front of the input (fuel-based descent). -/
def parseValue : Nat → List Char → Option (Json × List Char)
  | 0, _ => none
  | Nat.succ fuel, s =>
    match skipWs s with
    | [] => none
    | c :: rest =>
      if c = lbrace then
        match skipWs rest with
        | d :: rest2 =>
            if d = rbrace then some (Json.jobj [], rest2)
            else (parseMembers fuel (skipWs rest)).map (fun p => (Json.jobj p.1, p.2))
        | [] => none
      else if c = '[' then
        match skipWs rest with
        | d :: rest2 =>
            if d = ']' then some (Json.jarr [], rest2)
            else (parseElems fuel (skipWs rest)).map (fun p => (Json.jarr p.1, p.2))
        | [] => none
      else if c = '"' then
        (parseStringBody rest).map (fun p => (Json.jstr p.1, p.2))
      else if c = 't' then
        match rest with
        | 'r' :: 'u' :: 'e' :: rest2 => some (Json.jbool true, rest2)
        | _ => none
      else if c = 'f' then
        match rest with
        | 'a' :: 'l' :: 's' :: 'e' :: rest2 => some (Json.jbool false, rest2)
        | _ => none
      else if c = 'n' then
        match rest with
        | 'u' :: 'l' :: 'l' :: rest2 => some (Json.jnull, rest2)
        | _ => none
      else if c = '-' || c.isDigit then
        parseNumber (c :: rest)
      else none

/-- Members of a JSON object after the opening brace (nonempty case). -/
def parseMembers : Nat → List Char → Option (List (List Char × Json) × List Char)
  | 0, _ => none
  | Nat.succ fuel, s =>
    match skipWs s with
    | '"' :: rest =>
      (parseStringBody rest).bind (fun kp =>
        match skipWs kp.2 with
        | ':' :: rest2 =>
          (parseValue fuel rest2).bind (fun vp =>
            match skipWs vp.2 with
            | ',' :: rest3 =>
                (parseMembers fuel rest3).map (fun mp => ((kp.1, vp.1) :: mp.1, mp.2))
            | c :: rest3 =>
                if c = rbrace then some ([(kp.1, vp.1)], rest3) else none
            | [] => none)
        | _ => none)
    | _ => none

/-- Elements of a JSON array after the opening bracket (nonempty case). -/
def parseElems : Nat → List Char → Option (List Json × List Char)
  | 0, _ => none
  | Nat.succ fuel, s =>
    (parseValue fuel s).bind (fun vp =>
      match skipWs vp.2 with
      | ',' :: rest => (parseElems fuel rest).map (fun ep => (vp.1 :: ep.1, ep.2))
      | ']' :: rest => some ([vp.1], rest)
      | _ => none)

end

/-- Model of `JSON.parse`: a single JSON value spanning the whole input
(up to surrounding whitespace). -/
def parseJson (s : List Char) : Option Json :=
  (parseValue (s.length + 1) s).bind (fun p =>
    if (skipWs p.2).isEmpty then some p.1 else none)

/-! ## The classifier-output extraction of `processUrls.js` (lines 64-77) -/

/-- The JSON-text selection in `processUrl` (`src/scheduler/processUrls.js`
lines 64-74 and identically `src/unnamed/part_004` lines 61-71): trim the
output, then take `substring(indexOf(lbrace), indexOf(rbrace) + 1)` when the
guard `firstJsonStart !== -1 && firstJsonEnd !== -1` holds. -/
def codeExtract (out : List Char) : List Char :=
  if jsIndexOf (jsTrim out) lbrace ≠ -1 ∧
      jsIndexOf (jsTrim out) rbrace + 1 ≠ -1 then
    jsSubstring (jsTrim out) (jsIndexOf (jsTrim out) lbrace)
      (jsIndexOf (jsTrim out) rbrace + 1)
  else jsTrim out

/-- The classification step applied to a raw classifier output: select the
JSON text as the code does and parse it; `none` is the
`ClassificationError` case (`JSON.parse` throwing). -/
def classifyParse (out : List Char) : Option Json :=
  parseJson (codeExtract out)

/-- Modelled from the spec: "locate the first `{...}` balanced substring in
that output".  Scans from the first opening brace, tracking nesting depth,
and returns the substring up to the brace that closes it. -/
def scanBalanced (depth : Nat) (acc : List Char) : List Char → Option (List Char)
  | [] => none
  | c :: rest =>
      if c = lbrace then scanBalanced (depth + 1) (acc ++ [c]) rest
      else if c = rbrace then
        if depth = 1 then some (acc ++ [c])
        else if depth = 0 then none
        else scanBalanced (depth - 1) (acc ++ [c]) rest
      else scanBalanced depth (acc ++ [c]) rest

/-- Modelled from the spec: the first balanced `{...}` substring of the
output, if any. -/
def specExtractBalanced (out : List Char) : Option (List Char) :=
  scanBalanced 0 [] (out.dropWhile (fun c => c ≠ lbrace))

/-! ## JavaScript truthiness, as used on the parsed analysis fields -/

/-- Truthiness of a JSON value under JavaScript coercion. -/
def jsTruthyV : Json → Bool
  | Json.jnull => false
  | Json.jbool b => b
  | Json.jnum i frac _ => !(i = 0 && frac.all (fun c => c = '0'))
  | Json.jstr s => !s.isEmpty
  | Json.jarr _ => true
  | Json.jobj _ => true

/-- Truthiness of a possibly absent property (`undefined` is falsy). -/
def jsTruthy (o : Option Json) : Bool :=
  match o with
  | none => false
  | some v => jsTruthyV v

/-- Property access on a parsed JSON value.  `JSON.parse` keeps the last
occurrence of a duplicated key, hence the search from the end. -/
def getField (j : Json) (key : List Char) : Option Json :=
  match j with
  | Json.jobj fields => (fields.reverse.find? (fun f => decide (f.1 = key))).map (fun f => f.2)
  | _ => none

/-- `x || null`: keep a truthy value, otherwise SQL `NULL` (`none`). -/
def jsOrNull (o : Option Json) : Option Json :=
  if jsTruthy o then o else none

/-- `x || 0`: keep a truthy value, otherwise the number `0`. -/
def jsOrZero (o : Option Json) : Json :=
  match o with
  | some v => if jsTruthyV v then v else Json.jnum 0 [] []
  | none => Json.jnum 0 [] []

/-! ## Data model (`src/database/users.sql`, `src/unnamed/part_003`)

The availability pipeline's tables (`availability_urls`,
`availability_screenshots`, `availability_results`,
`availability_user_urls`) have exactly the same columns as the price
pipeline's (`monitored_urls`, `screenshots`, `analysis_results`,
`user_urls`); one `Store` shape models either kind. -/

/-- The `status` column: `ENUM('active', 'paused', 'error')`. -/
inductive UrlStatus where
  | active : UrlStatus
  | paused : UrlStatus
  | error : UrlStatus
deriving DecidableEq

/-- A `monitored_urls` (or `availability_urls`) row. -/
structure Target where
  id : Nat
  url : String
  frequency_hours : Nat
  last_checked : Option Nat
  created_at : Nat
  active : Bool
  status : UrlStatus
  failed_attempts : Nat
deriving DecidableEq

/-- A `screenshots` (or `availability_screenshots`) row. -/
structure Screenshot where
  id : Nat
  url_id : Nat
  screenshot_path : String
  analyzed : Bool
deriving DecidableEq

/-- An `analysis_results` (or `availability_results`) row.  The kind
specific free-form columns are kept as the raw JSON values the insert
receives. -/
structure AnalysisRow where
  id : Nat
  screenshot_id : Nat
  is_ecommerce : Bool
  is_product_page : Bool
  is_on_sale : Bool
  confidence : Json
  product_name : Option Json
  price : Option Json
  currency : Option Json
  discount_percentage : Option Json
  other_insights : Option Json
  discount_details : Option Json
  notification_sent : Bool

/-- A `users` row (only the columns the dispatcher reads). -/
structure User where
  id : Nat
  email : String
  name : String
deriving DecidableEq

/-- The persistent state owned by the Target Store.  `userUrls` holds
`(user_id, url_id)` pairs. -/
structure Store where
  targets : List Target
  screenshots : List Screenshot
  analyses : List AnalysisRow
  users : List User
  userUrls : List (Nat × Nat)
  nextScreenshotId : Nat
  nextAnalysisId : Nat

/-! ## Target store operations (`src/database/db.js`) -/

/-- Apply `f` to the target row(s) with the given id (`WHERE id = ?`). -/
def updateTarget (uid : Nat) (f : Target → Target) (s : Store) : Store :=
  { s with targets := s.targets.map (fun t => if t.id = uid then f t else t) }

/-- Row effect of `recordScreenshot` on `monitored_urls` (db.js line 114):
`SET last_checked = NOW(), failed_attempts = 0`. -/
def recordScreenshotT (now : Nat) (t : Target) : Target :=
  { t with last_checked := some now, failed_attempts := 0 }

/-- Row effect of `recordFailedScreenshotAttempt` (db.js lines 143-151).
MySQL evaluates the assignment list left to right, so the two `IF`
conditions read the already incremented `failed_attempts`:
`last_checked = NOW(), failed_attempts = failed_attempts + 1,
active = IF(failed_attempts >= 3, FALSE, TRUE),
status = IF(failed_attempts >= 3, 'error', status)`. -/
def recordFailedT (now : Nat) (t : Target) : Target :=
  let failed := t.failed_attempts + 1
  { t with
    last_checked := some now
    failed_attempts := failed
    active := if 3 ≤ failed then false else true
    status := if 3 ≤ failed then UrlStatus.error else t.status }

/-- `recordScreenshot` (db.js lines 110-133): reset the target's failure
state and insert a `screenshots` row; returns the inserted id. -/
def recordScreenshotS (uid : Nat) (now : Nat) (path : String) (s : Store) :
    Store × Nat :=
  let s1 := updateTarget uid (recordScreenshotT now) s
  let sid := s1.nextScreenshotId
  ({ s1 with
      screenshots := s1.screenshots ++ [⟨sid, uid, path, false⟩]
      nextScreenshotId := sid + 1 }, sid)

/-- `recordFailedScreenshotAttempt` (db.js lines 140-166), store level. -/
def recordFailedS (uid : Nat) (now : Nat) (s : Store) : Store :=
  updateTarget uid (recordFailedT now) s

/-- The `analysis_results` row built by `storeAnalysisResults`
(db.js lines 183-202), with the `|| false` / `|| 0` / `|| null`
defaulting of the source. -/
def mkAnalysisRow (aid sid : Nat) (j : Json) : AnalysisRow :=
  { id := aid
    screenshot_id := sid
    is_ecommerce := jsTruthy (getField j ("isEcommerce".toList))
    is_product_page := jsTruthy (getField j ("isProductPage".toList))
    is_on_sale := jsTruthy (getField j ("isOnSale".toList))
    confidence := jsOrZero (getField j ("confidence".toList))
    product_name := jsOrNull (getField j ("productName".toList))
    price := jsOrNull (getField j ("price".toList))
    currency := jsOrNull (getField j ("currency".toList))
    discount_percentage := jsOrNull (getField j ("discountPercentage".toList))
    other_insights := jsOrNull (getField j ("otherInsights".toList))
    discount_details := jsOrNull (getField j ("discountDetails".toList))
    notification_sent := false }

/-- `storeAnalysisResults` (db.js lines 174-213): mark the screenshot
analyzed and insert the analysis row. -/
def storeAnalysisResultsS (sid : Nat) (j : Json) (s : Store) : Store :=
  let markShot := fun (sc : Screenshot) =>
    if sc.id = sid then { sc with analyzed := true } else sc
  let s1 := { s with screenshots := s.screenshots.map markShot }
  let aid := s1.nextAnalysisId
  { s1 with
      analyses := s1.analyses ++ [mkAnalysisRow aid sid j]
      nextAnalysisId := aid + 1 }

/-- `markNotificationSent` (db.js lines 220-232). -/
def markNotificationSentS (aid : Nat) (s : Store) : Store :=
  let markRow := fun (a : AnalysisRow) =>
    if a.id = aid then { a with notification_sent := true } else a
  { s with analyses := s.analyses.map markRow }

/-- `deactivateMonitoredUrl` (db.js lines 518-533):
`SET active = FALSE, status = 'paused'`. -/
def deactivateMonitoredUrlT (t : Target) : Target :=
  { t with active := false, status := UrlStatus.paused }

/-- `deactivateMonitoredUrl`, store level. -/
def deactivateMonitoredUrlS (uid : Nat) (s : Store) : Store :=
  updateTarget uid deactivateMonitoredUrlT s

/-- The `WHERE` guard of `deactivateOldUrls` (db.js lines 432-438):
`active = TRUE AND last_checked IS NOT NULL AND
DATEDIFF(NOW(), created_at) > 90`, with `DATEDIFF` modelled on hour
valued timestamps as whole days elapsed. -/
def oldUrlGuard (now : Nat) (t : Target) : Bool :=
  t.active && t.last_checked.isSome && decide (90 < (now - t.created_at) / 24)

/-- Row effect of `deactivateOldUrls`: `SET active = FALSE`
(the `status` column is not touched). -/
def deactivateOldT (now : Nat) (t : Target) : Target :=
  if oldUrlGuard now t then { t with active := false } else t

/-- `deactivateOldUrls` (db.js lines 430-448). -/
def deactivateOldUrlsS (now : Nat) (s : Store) : Store :=
  { s with targets := s.targets.map (deactivateOldT now) }

/-- `deleteUserUrl` (db.js lines 456-489): remove the association and,
when no subscriber remains, `SET active = FALSE` (status untouched). -/
def deleteUserUrlS (userId urlId : Nat) (s : Store) : Store :=
  let s1 := { s with
    userUrls := s.userUrls.filter (fun p => !(p.1 = userId && p.2 = urlId)) }
  if (s1.userUrls.filter (fun p => p.2 = urlId)).isEmpty then
    updateTarget urlId (fun t => { t with active := false }) s1
  else s1

/-- Row state established by `addMonitoredUrl` (db.js lines 50-54) for a
new or revived target: `last_checked=NULL, active=TRUE,
failed_attempts=0, status="active"`. -/
def registerT (freq : Nat) (t : Target) : Target :=
  { t with
    frequency_hours := freq
    last_checked := none
    active := true
    status := UrlStatus.active
    failed_attempts := 0 }

/-- A freshly inserted target row. -/
def initialTarget (id : Nat) (url : String) (freq : Nat) (created : Nat) :
    Target :=
  { id := id
    url := url
    frequency_hours := freq
    last_checked := none
    created_at := created
    active := true
    status := UrlStatus.active
    failed_attempts := 0 }

/-- Due-ness predicate of `getUrlsToProcess` (db.js lines 88-94):
`active = TRUE AND (last_checked IS NULL OR
TIMESTAMPDIFF(HOUR, last_checked, NOW()) >= frequency_hours)`. -/
def isDue (now : Nat) (t : Target) : Bool :=
  t.active &&
    (match t.last_checked with
     | none => true
     | some lc => decide (t.frequency_hours ≤ now - lc))

/-- `getUrlsToProcess` (db.js lines 85-102, and identically
`getAvailabilityUrlsToProcess` in `src/unnamed/part_002` lines 66-83):
a `SELECT ... LIMIT 10` that leaves the store untouched. -/
def getUrlsToProcess (now : Nat) (s : Store) : Store × List Target :=
  (s, (s.targets.filter (isDue now)).take 10)

/-! ## One watch cycle (`src/scheduler/processUrls.js` `processUrl`,
and `src/unnamed/part_004` for the availability pipeline)

A cycle's interaction with the outside world is captured by a
`CycleOutcome`: whether the capture step threw, whether the external
classifier process threw, and otherwise the raw output it printed. -/

/-- The environment of one check cycle. -/
inductive CycleOutcome where
  /-- `captureUrlScreenshot` rejected (`CaptureError`). -/
  | captureErr : CycleOutcome
  /-- Capture returned `path`, then `execSync` threw. -/
  | classifierErr (path : String) : CycleOutcome
  /-- Capture returned `path` and the classifier printed `out`. -/
  | classifierOut (path : String) (out : List Char) : CycleOutcome

/-- `processUrl` of the price pipeline
(`src/scheduler/processUrls.js` lines 33-103): store effect plus the
list of screenshot files it deletes.  Control flow, by source path:

* capture throws → outer catch: `recordFailedScreenshotAttempt`;
  `deleteScreenshot(null)` is a no-op (line 101 with a null path);
* capture ok, `execSync` throws → `recordScreenshot` already ran; outer
  catch records the failure and deletes the captured file;
* parse failure → inner catch records the failure and rethrows, the inner
  `finally` deletes the file, and the outer catch records the failure a
  second time (its own delete finds the file gone);
* parsed, `!analysisResults.isProductPage` → `recordFailedScreenshotAttempt`
  (line 80) and `storeAnalysisResults` (line 84), then the file is deleted;
* parsed, product page → `storeAnalysisResults`, file deleted. -/
def runCycle (now : Nat) (c : CycleOutcome) (uid : Nat) (s : Store) :
    Store × List String :=
  match c with
  | CycleOutcome.captureErr => (recordFailedS uid now s, [])
  | CycleOutcome.classifierErr path =>
      let s1 := (recordScreenshotS uid now path s).1
      (recordFailedS uid now s1, [path])
  | CycleOutcome.classifierOut path out =>
      let p := recordScreenshotS uid now path s
      match classifyParse out with
      | none =>
          (recordFailedS uid now (recordFailedS uid now p.1), [path])
      | some j =>
          if jsTruthy (getField j ("isProductPage".toList)) then
            (storeAnalysisResultsS p.2 j p.1, [path])
          else
            (storeAnalysisResultsS p.2 j (recordFailedS uid now p.1), [path])

/-- `processUrl` of the availability pipeline (`src/unnamed/part_004`
lines 33-101): identical store effect, but both `deleteScreenshot` calls
are commented out (lines 91 and 99), so no file is ever deleted. -/
def runAvailabilityCycle (now : Nat) (c : CycleOutcome) (uid : Nat)
    (s : Store) : Store × List String :=
  match c with
  | CycleOutcome.captureErr => (recordFailedS uid now s, [])
  | CycleOutcome.classifierErr path =>
      let s1 := (recordScreenshotS uid now path s).1
      (recordFailedS uid now s1, [])
  | CycleOutcome.classifierOut path out =>
      let p := recordScreenshotS uid now path s
      match classifyParse out with
      | none =>
          (recordFailedS uid now (recordFailedS uid now p.1), [])
      | some j =>
          if jsTruthy (getField j ("isProductPage".toList)) then
            (storeAnalysisResultsS p.2 j p.1, [])
          else
            (storeAnalysisResultsS p.2 j (recordFailedS uid now p.1), [])

/-- The effect of one `processUrl` cycle on the processed target's own
row: the same sequence of row updates `runCycle` applies through the
store. -/
def targetCycle (now : Nat) (c : CycleOutcome) (t : Target) : Target :=
  match c with
  | CycleOutcome.captureErr => recordFailedT now t
  | CycleOutcome.classifierErr _ => recordFailedT now (recordScreenshotT now t)
  | CycleOutcome.classifierOut _ out =>
      match classifyParse out with
      | none => recordFailedT now (recordFailedT now (recordScreenshotT now t))
      | some j =>
          if jsTruthy (getField j ("isProductPage".toList)) then
            recordScreenshotT now t
          else
            recordFailedT now (recordScreenshotT now t)

/-- `processAllDueUrls` (`src/scheduler/processUrls.js` lines 109-132):
select the due batch, fire `deactivateOldUrls`, then process each due
target sequentially with `await processUrl(url)` inside a `for ... of`
loop.  `processUrl` never rejects (its outer catch swallows every
error), so the loop always reaches every target; the returned trace
records the targets whose cycles completed, in completion order.  `env`
gives each target's cycle outcome. -/
def processAllDueUrls (env : Nat → CycleOutcome) (now : Nat) (s : Store) :
    Store × List Nat :=
  let batch := (getUrlsToProcess now s).2
  let s0 := deactivateOldUrlsS now s
  batch.foldl
    (fun acc t => ((runCycle now (env t.id) t.id acc.1).1, acc.2 ++ [t.id]))
    (s0, [])

/-! ## Notification dispatcher (`src/notifications/emailSender.js`) -/

/-- A row of the `getUnsentSaleNotifications` join (db.js lines 238-254):
the analysis id together with `mu.id AS url_id`. -/
structure NotificationRow where
  aid : Nat
  url_id : Nat
deriving DecidableEq

/-- `getUnsentSaleNotifications` (db.js lines 238-254):
`is_on_sale = TRUE AND notification_sent = FALSE`, joined through
`screenshots` to `monitored_urls` (no condition on `is_product_page`). -/
def getUnsentSaleNotificationsS (s : Store) : List NotificationRow :=
  s.analyses.filterMap (fun a =>
    if a.is_on_sale && !a.notification_sent then
      (s.screenshots.find? (fun sc => sc.id = a.screenshot_id)).bind (fun sc =>
        (s.targets.find? (fun t => t.id = sc.url_id)).map (fun t =>
          ⟨a.id, t.id⟩))
    else none)

/-- `getUsersMonitoringUrl` (db.js lines 496-511). -/
def getUsersMonitoringUrlS (s : Store) (urlId : Nat) : List User :=
  s.users.filter (fun u => s.userUrls.any (fun p => p.1 = u.id && p.2 = urlId))

/-- Whether a given send attempt succeeds (`sendSaleEmail` returns `true`
or, on any internal error, `false`; it never throws). -/
def SendOracle : Type := Nat → String → Bool

/-- The body of the `processUnsentNotifications` loop
(`src/notifications/emailSender.js` lines 173-201) for one notification:
resolve the subscribers; with none, mark the notification sent and move
on; otherwise send to every subscriber, and only if all sends succeeded
mark the notification sent and deactivate the target.  Returns the
updated store and the `(analysis id, recipient)` sends attempted. -/
def dispatchOne (oracle : SendOracle) (s : Store) (n : NotificationRow) :
    Store × List (Nat × String) :=
  let users := getUsersMonitoringUrlS s n.url_id
  if users.isEmpty then
    (markNotificationSentS n.aid s, [])
  else
    let sends := users.map (fun u => (n.aid, u.email))
    let allEmailsSent := users.all (fun u => oracle n.aid u.email)
    if allEmailsSent then
      (deactivateMonitoredUrlS n.url_id (markNotificationSentS n.aid s), sends)
    else
      (s, sends)

/-- `processUnsentNotifications` (emailSender.js lines 162-208): fetch
the unsent qualifying rows once, then run the dispatch body over each. -/
def processUnsentNotificationsS (oracle : SendOracle) (s : Store) :
    Store × List (Nat × String) :=
  (getUnsentSaleNotificationsS s).foldl
    (fun acc n =>
      let r := dispatchOne oracle acc.1 n
      (r.1, acc.2 ++ r.2))
    (s, [])

/-! ## Capture service (`src/unnamed/part_005` `takeScreenshot`) -/

/-- The external events one `takeScreenshot` invocation can encounter. -/
structure ShotEnv where
  /-- First attempt's `page.goto` succeeds. -/
  nav1_ok : Bool
  /-- First attempt's `page.screenshot` succeeds. -/
  shot1_ok : Bool
  /-- Size in KB of the first capture. -/
  size1 : Nat
  /-- Failed `page2.goto` attempts in the retry loop (3 or more means
  every retry failed). -/
  nav2_failures : Nat
  /-- Second attempt's `page2.screenshot` succeeds. -/
  shot2_ok : Bool
  /-- Size in KB of the second capture. -/
  size2 : Nat
deriving DecidableEq

/-- What one `takeScreenshot` invocation did: its outcome and how many
browser sessions it launched and closed. -/
structure ShotExec where
  result : Option String
  launched : Nat
  closed : Nat
deriving DecidableEq

/-- `takeScreenshot` (`src/unnamed/part_005` lines 24-286) with the
minimum-size threshold `minSizeKB` (defaulted to 10 by the source).
`browser.close()` is executed only on the straight-line path after a
successful `page.screenshot` (lines 117 and 248); the `catch` block at
line 282 rethrows without closing anything, so a thrown navigation or
screenshot error leaves the just-launched session open. -/
def takeScreenshot (env : ShotEnv) (minSizeKB : Nat) (relPath : String) :
    ShotExec :=
  if !env.nav1_ok then
    -- page.goto (line 95) throws; catch rethrows, first browser never closed
    ⟨none, 1, 0⟩
  else if !env.shot1_ok then
    -- page.screenshot (line 116) throws; first browser never closed
    ⟨none, 1, 0⟩
  else if minSizeKB ≤ env.size1 then
    -- size gate passed: browser closed (line 117), resized file returned
    ⟨some relPath, 1, 1⟩
  else if 3 ≤ env.nav2_failures then
    -- retry loop (lines 212-225) exhausts maxRetries and rethrows;
    -- second browser never closed
    ⟨none, 2, 1⟩
  else if !env.shot2_ok then
    -- page2.screenshot (line 247) throws; second browser never closed
    ⟨none, 2, 1⟩
  else
    -- second browser closed (line 248); the file is returned even when
    -- size2 is still below the gate (lines 268-281)
    ⟨some relPath, 2, 2⟩

/-! ## Target lifecycle steps and reachability -/

/-- The operations of the repository that mutate a watched target's row,
with the preconditions under which the schedulers invoke them: check
cycles run only on targets selected by `getUrlsToProcess`, which requires
`active = TRUE`. -/
inductive TargetStep : Target → Target → Prop
  /-- `addMonitoredUrl`'s `ON DUPLICATE KEY UPDATE` revival. -/
  | register (freq : Nat) (t : Target) : TargetStep t (registerT freq t)
  /-- One `processUrl` cycle on a due (hence active) target. -/
  | cycle (now : Nat) (c : CycleOutcome) (t : Target) :
      t.active = true → TargetStep t (targetCycle now c t)
  /-- `deactivateMonitoredUrl` from the notification dispatcher. -/
  | dispatcherDeactivate (t : Target) : TargetStep t (deactivateMonitoredUrlT t)
  /-- The `deactivateOldUrls` aging sweep. -/
  | agingSweep (now : Nat) (t : Target) : TargetStep t (deactivateOldT now t)
  /-- `deleteUserUrl` removing the last subscription: `SET active = FALSE`. -/
  | lastUnsubscribe (t : Target) : TargetStep t { t with active := false }

/-- Target states reachable from a fresh registration. -/
inductive ReachableTarget : Target → Prop
  | init (id : Nat) (url : String) (freq : Nat) (created : Nat) :
      ReachableTarget (initialTarget id url freq created)
  | step {t t' : Target} :
      ReachableTarget t → TargetStep t t' → ReachableTarget t'

/-- The spec's lifecycle invariant:
`active == (state != paused && state != error)`. -/
def statusConsistent (t : Target) : Prop :=
  t.active = true ↔ (t.status ≠ UrlStatus.paused ∧ t.status ≠ UrlStatus.error)

instance (t : Target) : Decidable (statusConsistent t) := by
  unfold statusConsistent; infer_instance

/-! ## Basic facts about the store operations -/

theorem updateTarget_screenshots (uid : Nat) (f : Target → Target) (s : Store) :
    (updateTarget uid f s).screenshots = s.screenshots := rfl

theorem updateTarget_analyses (uid : Nat) (f : Target → Target) (s : Store) :
    (updateTarget uid f s).analyses = s.analyses := rfl

theorem recordFailedT_failed (now : Nat) (t : Target) :
    (recordFailedT now t).failed_attempts = t.failed_attempts + 1 := rfl

theorem recordScreenshotT_failed (now : Nat) (t : Target) :
    (recordScreenshotT now t).failed_attempts = 0 := rfl

/-- `recordFailedT` can only leave a target active when the incremented
counter is still below the threshold. -/
theorem recordFailedT_active_bound (now : Nat) (t : Target) :
    (recordFailedT now t).active = true →
    (recordFailedT now t).failed_attempts < 3 := by
  simp only [recordFailedT]
  split
  · simp
  · simp_all
    omega

/-- Whatever the cycle outcome, a cycle can only leave a target active
with fewer than 3 consecutive failures. -/
theorem targetCycle_active_bound (now : Nat) (c : CycleOutcome) (t : Target) :
    (targetCycle now c t).active = true →
    (targetCycle now c t).failed_attempts < 3 := by
  cases c with
  | captureErr =>
      simp only [targetCycle]
      exact recordFailedT_active_bound now _
  | classifierErr path =>
      simp only [targetCycle]
      exact recordFailedT_active_bound now _
  | classifierOut path out =>
      simp only [targetCycle]
      cases hparse : classifyParse out with
      | none => exact recordFailedT_active_bound now _
      | some j =>
          dsimp only
          by_cases hp : jsTruthy (getField j ("isProductPage".toList)) = true
          · rw [if_pos hp]
            intro _
            simp [recordScreenshotT]
          · rw [if_neg hp]
            exact recordFailedT_active_bound now _

/-! ## Claim C1 -/

/-- Claim C1 as stated is false: on a cycle whose capture succeeds but
whose classifier output fails to parse, the counter does not end at its
pre-cycle value plus one.  Starting from a fresh target
(`failed_attempts = 0`), the unparsable-output cycle ends with
`failed_attempts = 2`: `recordScreenshot` reset the counter, then the
inner catch and the outer catch each incremented it. -/
theorem c1_counterexample :
    (initialTarget 0 "u" 6 0).failed_attempts = 0 ∧
    classifyParse ("oops".toList) = none ∧
    (targetCycle 1 (CycleOutcome.classifierOut "p" ("oops".toList))
        (initialTarget 0 "u" 6 0)).failed_attempts = 2 ∧
    (targetCycle 1 (CycleOutcome.classifierOut "p" ("oops".toList))
        (initialTarget 0 "u" 6 0)).failed_attempts ≠
      (initialTarget 0 "u" 6 0).failed_attempts + 1 := by
  refine ⟨rfl, rfl, rfl, ?_⟩
  decide

/-- Claim C1, amended.  The end-of-cycle value of `failed_attempts` by
cycle outcome: a capture failure increments the pre-cycle value by one;
every outcome past a successful capture first resets the counter to 0
(`recordScreenshot` runs before classification), so a classifier-process
failure ends at exactly 1, an unparsable output ends at exactly 2 (the
inner catch and the outer catch both record a failure), a parsed
not-a-product-page output ends at exactly 1, and only a parsed
product-page output ends at 0. -/
theorem c1_failed_attempts_amended (now : Nat) (t : Target) (path : String)
    (out : List Char) :
    (targetCycle now CycleOutcome.captureErr t).failed_attempts
      = t.failed_attempts + 1 ∧
    (targetCycle now (CycleOutcome.classifierErr path) t).failed_attempts = 1 ∧
    (classifyParse out = none →
      (targetCycle now (CycleOutcome.classifierOut path out) t).failed_attempts
        = 2) ∧
    (∀ j, classifyParse out = some j →
      jsTruthy (getField j ("isProductPage".toList)) = false →
      (targetCycle now (CycleOutcome.classifierOut path out) t).failed_attempts
        = 1) ∧
    (∀ j, classifyParse out = some j →
      jsTruthy (getField j ("isProductPage".toList)) = true →
      (targetCycle now (CycleOutcome.classifierOut path out) t).failed_attempts
        = 0) := by
  refine ⟨rfl, rfl, ?_, ?_, ?_⟩
  · intro h
    simp only [targetCycle, h]
    rfl
  · intro j hj hnp
    simp only [targetCycle, hj]
    rw [if_neg (by rw [hnp]; simp)]
    rfl
  · intro j hj hp
    simp only [targetCycle, hj]
    rw [if_pos hp]
    rfl

/-- Witness for the amended claim C1, at a fresh target: an unparsable
output ends the cycle at 2, a parsed product page at 0, a parsed
non-product page at 1. -/
theorem c1_failed_attempts_amended_witness :
    (targetCycle 1 (CycleOutcome.classifierOut "p" ("oops".toList))
        (initialTarget 0 "u" 6 0)).failed_attempts = 2 ∧
    (targetCycle 1
        (CycleOutcome.classifierOut "p"
          ("\x7b\"isProductPage\": true\x7d".toList))
        (initialTarget 0 "u" 6 0)).failed_attempts = 0 ∧
    (targetCycle 1
        (CycleOutcome.classifierOut "p"
          ("\x7b\"isProductPage\": false\x7d".toList))
        (initialTarget 0 "u" 6 0)).failed_attempts = 1 :=
  ⟨(c1_failed_attempts_amended 1 (initialTarget 0 "u" 6 0) "p"
      ("oops".toList)).2.2.1 rfl,
   (c1_failed_attempts_amended 1 (initialTarget 0 "u" 6 0) "p"
      ("\x7b\"isProductPage\": true\x7d".toList)).2.2.2.2
      (Json.jobj [("isProductPage".toList, Json.jbool true)]) rfl rfl,
   (c1_failed_attempts_amended 1 (initialTarget 0 "u" 6 0) "p"
      ("\x7b\"isProductPage\": false\x7d".toList)).2.2.2.1
      (Json.jobj [("isProductPage".toList, Json.jbool false)]) rfl rfl⟩

/-! ## Claim C3 -/

/-- In every reachable target state, an active target has strictly fewer
than 3 consecutive failures. -/
theorem reachable_active_failed_lt (t : Target) (hr : ReachableTarget t) :
    t.active = true → t.failed_attempts < 3 := by
  induction hr with
  | init id url freq created => intro _; simp [initialTarget]
  | step hr hs ih =>
      cases hs with
      | register freq t => intro _; simp [registerT]
      | cycle now c t hact =>
          exact targetCycle_active_bound now c _
      | dispatcherDeactivate t =>
          intro h
          simp [deactivateMonitoredUrlT] at h
      | agingSweep now t =>
          simp only [deactivateOldT]
          split
          · intro h; simp at h
          · exact ih
      | lastUnsubscribe t =>
          intro h
          simp at h

/-- Claim C3: from any reachable state in which the target is still
active, `failed_attempts` is below 3 (so it can never exceed 3 while
active), and one more `recordFailedScreenshotAttempt` transitions the
status to `error` and the active flag to false exactly when the
incremented counter reaches 3. -/
theorem c3_failure_threshold (t : Target) (now : Nat)
    (hr : ReachableTarget t) (ha : t.active = true) :
    t.failed_attempts < 3 ∧
    (((recordFailedT now t).status = UrlStatus.error ∧
        (recordFailedT now t).active = false) ↔
      (recordFailedT now t).failed_attempts = 3) := by
  have hlt := reachable_active_failed_lt t hr ha
  refine ⟨hlt, ?_⟩
  simp only [recordFailedT]
  split
  · next h => simp; omega
  · next h => simp; omega

/-- Witness for claim C3 at a target that registered and then failed two
consecutive cycles: the third failure hits the threshold. -/
theorem c3_failure_threshold_witness :
    (targetCycle 2 CycleOutcome.captureErr
        (targetCycle 1 CycleOutcome.captureErr (initialTarget 0 "u" 6 0))).failed_attempts
      < 3 ∧
    (((recordFailedT 3 (targetCycle 2 CycleOutcome.captureErr
        (targetCycle 1 CycleOutcome.captureErr
          (initialTarget 0 "u" 6 0)))).status = UrlStatus.error ∧
      (recordFailedT 3 (targetCycle 2 CycleOutcome.captureErr
        (targetCycle 1 CycleOutcome.captureErr
          (initialTarget 0 "u" 6 0)))).active = false) ↔
      (recordFailedT 3 (targetCycle 2 CycleOutcome.captureErr
        (targetCycle 1 CycleOutcome.captureErr
          (initialTarget 0 "u" 6 0)))).failed_attempts = 3) :=
  c3_failure_threshold _ 3
    (ReachableTarget.step
      (ReachableTarget.step (ReachableTarget.init 0 "u" 6 0)
        (TargetStep.cycle 1 CycleOutcome.captureErr _ rfl))
      (TargetStep.cycle 2 CycleOutcome.captureErr _ (by decide)))
    (by decide)

/-! ## Claim C5 -/

/-- A store holding eleven eligible targets. -/
def elevenTargetStore : Store :=
  ⟨(List.range 11).map (fun i => initialTarget i "u" 6 0), [], [], [], [], 0, 0⟩

/-- Claim C5 as stated is false: with eleven eligible targets the
`LIMIT 10` clause drops one of them, so "returns a target if and only if
it is eligible" fails in the if direction — the eleventh target is
active with `last_checked` null, yet is not returned. -/
theorem c5_counterexample :
    isDue 0 (initialTarget 10 "u" 6 0) = true ∧
    initialTarget 10 "u" 6 0 ∈ elevenTargetStore.targets ∧
    initialTarget 10 "u" 6 0 ∉ (getUrlsToProcess 0 elevenTargetStore).2 := by
  refine ⟨rfl, ?_, ?_⟩ <;> decide

/-- Claim C5, amended: every returned target is a stored target
satisfying the eligibility condition (`active` and `last_checked` null or
elapsed hours at least the check interval); at most 10 targets are
returned; when at most 10 targets are eligible the selection returns
every eligible target; and the selection writes nothing to the store. -/
theorem c5_due_selection_amended (now : Nat) (s : Store) :
    (getUrlsToProcess now s).1 = s ∧
    (getUrlsToProcess now s).2.length ≤ 10 ∧
    (∀ t, t ∈ (getUrlsToProcess now s).2 →
      t ∈ s.targets ∧ isDue now t = true) ∧
    ((s.targets.filter (isDue now)).length ≤ 10 →
      ∀ t, t ∈ s.targets → isDue now t = true →
        t ∈ (getUrlsToProcess now s).2) := by
  refine ⟨rfl, ?_, ?_, ?_⟩
  · simp only [getUrlsToProcess, List.length_take]
    exact min_le_left _ _
  · intro t ht
    have h1 : t ∈ s.targets.filter (isDue now) := List.take_subset _ _ ht
    exact List.mem_filter.mp h1
  · intro hlen t htm hdue
    simp only [getUrlsToProcess]
    rw [List.take_of_length_le hlen]
    exact List.mem_filter.mpr ⟨htm, hdue⟩

/-- A store holding a single eligible target. -/
def oneTargetStore : Store :=
  ⟨[initialTarget 0 "u" 6 0], [], [], [], [], 0, 0⟩

/-- Witness for the amended claim C5: with a single eligible target, the
selection returns it and leaves the store unchanged. -/
theorem c5_due_selection_amended_witness :
    (getUrlsToProcess 0 oneTargetStore).1 = oneTargetStore ∧
    initialTarget 0 "u" 6 0 ∈ (getUrlsToProcess 0 oneTargetStore).2 :=
  ⟨(c5_due_selection_amended 0 oneTargetStore).1,
   (c5_due_selection_amended 0 oneTargetStore).2.2.2 (by decide)
     (initialTarget 0 "u" 6 0) (by decide) (by decide)⟩

/-! ## Claim C6 -/

/-- An active, consistent target old enough for the aging sweep. -/
def agedTarget : Target :=
  { id := 0
    url := "u"
    frequency_hours := 6
    last_checked := some 100
    created_at := 0
    active := true
    status := UrlStatus.active
    failed_attempts := 0 }

/-- A store holding `agedTarget` and no subscriptions. -/
def agedStore : Store := ⟨[agedTarget], [], [], [], [], 0, 0⟩

/-- Claim C6 as stated is false: both the 90-day aging sweep and the
last-unsubscribe deactivation set `active = FALSE` while leaving
`status = 'active'` untouched, so the resulting target violates
`active == (status != 'paused' && status != 'error')`. -/
theorem c6_counterexample :
    statusConsistent agedTarget ∧
    (deactivateOldUrlsS 2400 agedStore).targets
      = [{ agedTarget with active := false }] ∧
    (deleteUserUrlS 5 0 agedStore).targets
      = [{ agedTarget with active := false }] ∧
    ¬ statusConsistent { agedTarget with active := false } := by
  refine ⟨?_, ?_, ?_, ?_⟩ <;> decide

/-- Claim C6, amended: `deactivateMonitoredUrl`, registration, a failed
attempt recorded on a target in status `active`, and `recordScreenshot`
all preserve the invariant `active == (status != 'paused' && status !=
'error')` — but the 90-day aging sweep `deactivateOldUrls` and the
last-unsubscribe branch of `deleteUserUrl` set `active` to false while
leaving the status `'active'`, breaking the invariant whenever they fire
on a target in status `active`. -/
theorem c6_status_invariant_amended (now freq : Nat) (t : Target) :
    statusConsistent (deactivateMonitoredUrlT t) ∧
    statusConsistent (registerT freq t) ∧
    (t.status = UrlStatus.active → statusConsistent (recordFailedT now t)) ∧
    (statusConsistent t → statusConsistent (recordScreenshotT now t)) ∧
    (t.status = UrlStatus.active → oldUrlGuard now t = true →
      ¬ statusConsistent (deactivateOldT now t)) ∧
    (t.status = UrlStatus.active →
      ¬ statusConsistent { t with active := false }) := by
  refine ⟨?_, ?_, ?_, ?_, ?_, ?_⟩
  · simp [deactivateMonitoredUrlT, statusConsistent]
  · simp [registerT, statusConsistent]
  · intro hst
    simp only [recordFailedT, statusConsistent]
    split
    · simp
    · simp [hst]
  · intro hc
    simpa [recordScreenshotT, statusConsistent] using hc
  · intro hst hguard
    simp [deactivateOldT, hguard, statusConsistent, hst]
  · intro hst
    simp [statusConsistent, hst]

/-- Witness for the amended claim C6 at `agedTarget`: the dispatcher's
deactivation preserves the invariant while the aging sweep's target
update breaks it. -/
theorem c6_status_invariant_amended_witness :
    statusConsistent (deactivateMonitoredUrlT agedTarget) ∧
    ¬ statusConsistent { agedTarget with active := false } :=
  ⟨(c6_status_invariant_amended 2400 6 agedTarget).1,
   (c6_status_invariant_amended 2400 6 agedTarget).2.2.2.2.2 rfl⟩

/-! ## Claim C7 -/

/-- Claim C7 is the spec's stated requirement and the code violates it:
`takeScreenshot` closes a browser session only on the straight-line path
after a successful screenshot, so a thrown first-attempt navigation error
leaves the first session open (1 launched, 0 closed), and an exhausted
second-attempt retry loop leaves the second session open (2 launched,
only 1 closed). -/
theorem c7_session_leak :
    takeScreenshot ⟨false, true, 0, 0, true, 0⟩ 10 "/screenshots/x.png"
      = ⟨none, 1, 0⟩ ∧
    takeScreenshot ⟨true, true, 0, 3, true, 50⟩ 10 "/screenshots/x.png"
      = ⟨none, 2, 1⟩ ∧
    takeScreenshot ⟨true, true, 50, 0, true, 0⟩ 10 "/screenshots/x.png"
      = ⟨some "/screenshots/x.png", 1, 1⟩ := by
  refine ⟨?_, ?_, ?_⟩ <;> decide

/-! ## Claim C8 -/

/-- The processed-targets trace of the batch fold: every batch element is
appended, in order, whatever its cycle outcome. -/
theorem batch_fold_trace (env : Nat → CycleOutcome) (now : Nat)
    (l : List Target) (st : Store) (acc : List Nat) :
    (l.foldl
        (fun acc t =>
          ((runCycle now (env t.id) t.id acc.1).1, acc.2 ++ [t.id]))
        (st, acc)).2 = acc ++ l.map Target.id := by
  induction l generalizing st acc with
  | nil => simp
  | cons t rest ih => simp [ih]

/-- The store component of the batch fold is the sequential composition
of the per-target cycles. -/
theorem batch_fold_store (env : Nat → CycleOutcome) (now : Nat)
    (l : List Target) (st : Store) (acc : List Nat) :
    (l.foldl
        (fun acc t =>
          ((runCycle now (env t.id) t.id acc.1).1, acc.2 ++ [t.id]))
        (st, acc)).1
      = l.foldl (fun s t => (runCycle now (env t.id) t.id s).1) st := by
  induction l generalizing st acc with
  | nil => simp
  | cons t rest ih => simp [ih]

/-- Claim C8: whatever each target's cycle outcome — including capture
failures, classifier crashes and unparsable outputs — `processAllDueUrls`
completes a cycle for every target of the due batch, in batch order, and
the final store is the strictly sequential left-to-right composition of
the per-target cycles (one target's cycle is finished before the next
begins). -/
theorem c8_sequential_batch (env : Nat → CycleOutcome) (now : Nat)
    (s : Store) :
    (processAllDueUrls env now s).2
      = ((getUrlsToProcess now s).2).map Target.id ∧
    (processAllDueUrls env now s).1
      = ((getUrlsToProcess now s).2).foldl
          (fun st t => (runCycle now (env t.id) t.id st).1)
          (deactivateOldUrlsS now s) := by
  constructor
  · simpa using batch_fold_trace env now ((getUrlsToProcess now s).2)
      (deactivateOldUrlsS now s) []
  · simpa using batch_fold_store env now ((getUrlsToProcess now s).2)
      (deactivateOldUrlsS now s) []

/-! ## Claim C4 -/

/-- After `markNotificationSent`, every analysis row with the marked id
carries `notification_sent = true`. -/
theorem markNotificationSentS_sets (aid : Nat) (s : Store) :
    ∀ a ∈ (markNotificationSentS aid s).analyses,
      a.id = aid → a.notification_sent = true := by
  intro a ha heq
  simp only [markNotificationSentS] at ha
  obtain ⟨b, hb, rfl⟩ := List.mem_map.mp ha
  by_cases h : b.id = aid
  · simp [h]
  · simp only [if_neg h] at heq ⊢
    exact absurd heq h

/-- After `deactivateMonitoredUrl`, every target row with the given id is
inactive with status `paused`. -/
theorem deactivateMonitoredUrlS_sets (uid : Nat) (s : Store) :
    ∀ t ∈ (deactivateMonitoredUrlS uid s).targets,
      t.id = uid → t.active = false ∧ t.status = UrlStatus.paused := by
  intro t ht heq
  simp only [deactivateMonitoredUrlS, updateTarget] at ht
  obtain ⟨b, hb, rfl⟩ := List.mem_map.mp ht
  by_cases h : b.id = uid
  · simp [h, deactivateMonitoredUrlT]
  · simp only [if_neg h] at heq ⊢
    exact absurd heq h

/-- Claim C4: for any notification row the dispatcher processes — with no
subscribers it marks the row sent, attempts no send and leaves the
targets untouched; when every subscriber's send succeeds, in the same
pass it marks the row sent and deactivates the owning target
(`active = false`, status `paused`); when any send fails it leaves the
entire store unchanged even though sends were attempted. -/
theorem c4_dispatch_outcomes (oracle : SendOracle) (s : Store)
    (n : NotificationRow) :
    (getUsersMonitoringUrlS s n.url_id = [] →
      (dispatchOne oracle s n).1.targets = s.targets ∧
      (dispatchOne oracle s n).2 = [] ∧
      ∀ a ∈ (dispatchOne oracle s n).1.analyses,
        a.id = n.aid → a.notification_sent = true) ∧
    (getUsersMonitoringUrlS s n.url_id ≠ [] →
      (getUsersMonitoringUrlS s n.url_id).all
          (fun u => oracle n.aid u.email) = true →
      (∀ a ∈ (dispatchOne oracle s n).1.analyses,
        a.id = n.aid → a.notification_sent = true) ∧
      (∀ t ∈ (dispatchOne oracle s n).1.targets,
        t.id = n.url_id → t.active = false ∧ t.status = UrlStatus.paused)) ∧
    (getUsersMonitoringUrlS s n.url_id ≠ [] →
      (getUsersMonitoringUrlS s n.url_id).all
          (fun u => oracle n.aid u.email) = false →
      (dispatchOne oracle s n).1 = s ∧ (dispatchOne oracle s n).2 ≠ []) := by
  refine ⟨?_, ?_, ?_⟩
  · intro h
    have hd : dispatchOne oracle s n = (markNotificationSentS n.aid s, []) := by
      simp [dispatchOne, h]
    rw [hd]
    exact ⟨rfl, rfl, markNotificationSentS_sets n.aid s⟩
  · intro hne hall
    have hie : (getUsersMonitoringUrlS s n.url_id).isEmpty = false := by
      simpa [List.isEmpty_iff] using hne
    have hd : dispatchOne oracle s n
        = (deactivateMonitoredUrlS n.url_id (markNotificationSentS n.aid s),
           (getUsersMonitoringUrlS s n.url_id).map
             (fun u => (n.aid, u.email))) := by
      simp [dispatchOne, hie, hall]
    rw [hd]
    exact ⟨markNotificationSentS_sets n.aid s,
           deactivateMonitoredUrlS_sets n.url_id _⟩
  · intro hne hfail
    have hie : (getUsersMonitoringUrlS s n.url_id).isEmpty = false := by
      simpa [List.isEmpty_iff] using hne
    have hd : dispatchOne oracle s n
        = (s, (getUsersMonitoringUrlS s n.url_id).map
             (fun u => (n.aid, u.email))) := by
      simp [dispatchOne, hie, hfail]
    rw [hd]
    exact ⟨rfl, by simpa using hne⟩

/-- An unsent qualifying analysis row. -/
def dispatchRow : AnalysisRow :=
  { id := 0
    screenshot_id := 0
    is_ecommerce := true
    is_product_page := true
    is_on_sale := true
    confidence := Json.jnum 1 [] []
    product_name := none
    price := none
    currency := none
    discount_percentage := none
    other_insights := none
    discount_details := none
    notification_sent := false }

/-- A store with one unsent qualifying analysis row, its screenshot and
target, and a single subscriber. -/
def dispatchStore : Store :=
  { targets := [initialTarget 0 "u" 6 0]
    screenshots := [⟨0, 0, "p", true⟩]
    analyses := [dispatchRow]
    users := [⟨1, "a@b.c", "A"⟩]
    userUrls := [(1, 0)]
    nextScreenshotId := 1
    nextAnalysisId := 1 }

/-- Witness for claim C4: with one subscriber whose send succeeds, the
dispatch marks the row sent and deactivates the target; with one
subscriber whose send fails, the store is unchanged. -/
theorem c4_dispatch_outcomes_witness :
    ((∀ a ∈ (dispatchOne (fun _ _ => true) dispatchStore ⟨0, 0⟩).1.analyses,
        a.id = 0 → a.notification_sent = true) ∧
      (∀ t ∈ (dispatchOne (fun _ _ => true) dispatchStore ⟨0, 0⟩).1.targets,
        t.id = 0 → t.active = false ∧ t.status = UrlStatus.paused)) ∧
    (dispatchOne (fun _ _ => false) dispatchStore ⟨0, 0⟩).1 = dispatchStore :=
  ⟨(c4_dispatch_outcomes (fun _ _ => true) dispatchStore ⟨0, 0⟩).2.1
      (by decide) (by decide),
   ((c4_dispatch_outcomes (fun _ _ => false) dispatchStore ⟨0, 0⟩).2.2
      (by decide) (by decide)).1⟩

/-! ## Claim C9 -/

/-- A store with one fresh target and no capture history. -/
def freshStore : Store := ⟨[initialTarget 0 "u" 6 0], [], [], [], [], 0, 0⟩

/-- Claim C9 as stated is false in its frame part: on the price
pipeline's classification-failure path (capture succeeded, output
unparsable) a `screenshots` row has already been inserted, so the failure
path changes stored state beyond the target's own
`last_checked`/`failed_attempts`/`active`/`status` fields. -/
theorem c9_counterexample :
    freshStore.screenshots.length = 0 ∧
    classifyParse ("oops".toList) = none ∧
    ((runCycle 1 (CycleOutcome.classifierOut "p" ("oops".toList))
        0 freshStore).1).screenshots.length = 1 := by
  refine ⟨rfl, rfl, ?_⟩
  decide

/-- Claim C9, amended: the availability pipeline never deletes a captured
file; the price pipeline deletes the captured file on every cycle in
which a capture happened (both failure and success paths) and deletes
nothing when capture itself threw; the capture-failure path touches no
stored state beyond the target rows; but the classification-failure path
additionally keeps the `screenshots` row inserted before classification
(while inserting no analysis row). -/
theorem c9_retention_amended (now uid : Nat) (c : CycleOutcome)
    (s : Store) (path : String) (out : List Char) :
    (runAvailabilityCycle now c uid s).2 = [] ∧
    (runCycle now CycleOutcome.captureErr uid s).2 = [] ∧
    (runCycle now (CycleOutcome.classifierErr path) uid s).2 = [path] ∧
    (runCycle now (CycleOutcome.classifierOut path out) uid s).2 = [path] ∧
    ((runCycle now CycleOutcome.captureErr uid s).1.screenshots
        = s.screenshots ∧
      (runCycle now CycleOutcome.captureErr uid s).1.analyses = s.analyses ∧
      (runCycle now CycleOutcome.captureErr uid s).1.users = s.users ∧
      (runCycle now CycleOutcome.captureErr uid s).1.userUrls
        = s.userUrls) ∧
    (classifyParse out = none →
      (runCycle now (CycleOutcome.classifierOut path out) uid s).1.screenshots
        = s.screenshots ++ [⟨s.nextScreenshotId, uid, path, false⟩] ∧
      (runCycle now (CycleOutcome.classifierOut path out) uid s).1.analyses
        = s.analyses) := by
  refine ⟨?_, rfl, rfl, ?_, ⟨rfl, rfl, rfl, rfl⟩, ?_⟩
  · cases c with
    | captureErr => rfl
    | classifierErr p => rfl
    | classifierOut p o =>
        simp only [runAvailabilityCycle]
        cases hp : classifyParse o with
        | none => rfl
        | some j => dsimp only; split <;> rfl
  · simp only [runCycle]
    cases hp : classifyParse out with
    | none => rfl
    | some j => dsimp only; split <;> rfl
  · intro h
    simp only [runCycle, h]
    exact ⟨rfl, rfl⟩

/-- Witness for the amended claim C9 on the fresh store: the availability
cycle deletes nothing while the price cycle deletes the captured file,
and the unparsable-output failure path leaves a screenshots row behind. -/
theorem c9_retention_amended_witness :
    (runAvailabilityCycle 1
        (CycleOutcome.classifierOut "p" ("oops".toList)) 0 freshStore).2
      = [] ∧
    (runCycle 1 (CycleOutcome.classifierOut "p" ("oops".toList))
        0 freshStore).2 = ["p"] ∧
    (runCycle 1 (CycleOutcome.classifierOut "p" ("oops".toList))
        0 freshStore).1.screenshots = [⟨0, 0, "p", false⟩] :=
  ⟨(c9_retention_amended 1 0
      (CycleOutcome.classifierOut "p" ("oops".toList))
      freshStore "p" ("oops".toList)).1,
   (c9_retention_amended 1 0
      (CycleOutcome.classifierOut "p" ("oops".toList))
      freshStore "p" ("oops".toList)).2.2.2.1,
   ((c9_retention_amended 1 0
      (CycleOutcome.classifierOut "p" ("oops".toList))
      freshStore "p" ("oops".toList)).2.2.2.2.2 rfl).1⟩

/-! ## Claim C10 -/

/-- The cycle's effect on the processed target's row, through the store:
on the not-a-product-page branch every target row with the processed id
ends at exactly one failed attempt. -/
theorem runCycle_notProduct_target (now uid : Nat) (path : String)
    (out : List Char) (s : Store) (j : Json)
    (hparse : classifyParse out = some j)
    (hnp : jsTruthy (getField j ("isProductPage".toList)) = false) :
    ∀ t ∈ (runCycle now (CycleOutcome.classifierOut path out) uid s).1.targets,
      t.id = uid → t.failed_attempts = 1 := by
  simp only [runCycle, hparse]
  rw [if_neg (by rw [hnp]; simp)]
  intro t ht heq
  simp only [storeAnalysisResultsS, recordFailedS, recordScreenshotS,
    updateTarget] at ht
  obtain ⟨b, hb, rfl⟩ := List.mem_map.mp ht
  obtain ⟨a, ha, rfl⟩ := List.mem_map.mp hb
  by_cases h : a.id = uid
  · simp [h, recordFailedT, recordScreenshotT]
  · rw [if_neg h] at heq ⊢
    rw [if_neg h] at heq
    exact absurd heq h

/-- Claim C10: when capture succeeds and the classifier output parses to
an object whose `isProductPage` is falsy, the cycle still appends an
`AnalysisResult` row (with `is_product_page = false` and `is_on_sale`
taken from the parsed object) while also incrementing the target's
failure counter to 1; the dispatcher's selection keys only on
`is_on_sale` and `notification_sent`, so such a row joins into the
unsent-notification list; and with at least one subscriber the dispatch
attempts one send per subscriber. -/
theorem c10_not_product_page_notifies (now uid : Nat) (path : String)
    (out : List Char) (s : Store) (j : Json) (oracle : SendOracle)
    (hparse : classifyParse out = some j)
    (hnp : jsTruthy (getField j ("isProductPage".toList)) = false) :
    ((runCycle now (CycleOutcome.classifierOut path out) uid s).1.analyses
        = s.analyses ++
          [mkAnalysisRow s.nextAnalysisId s.nextScreenshotId j] ∧
      (mkAnalysisRow s.nextAnalysisId s.nextScreenshotId j).is_product_page
        = false ∧
      (mkAnalysisRow s.nextAnalysisId s.nextScreenshotId j).is_on_sale
        = jsTruthy (getField j ("isOnSale".toList)) ∧
      (mkAnalysisRow s.nextAnalysisId s.nextScreenshotId j).notification_sent
        = false ∧
      (∀ t ∈ (runCycle now (CycleOutcome.classifierOut path out)
          uid s).1.targets, t.id = uid → t.failed_attempts = 1)) ∧
    (∀ (s2 : Store) (a : AnalysisRow) (sc : Screenshot) (t : Target),
      a ∈ s2.analyses → a.is_on_sale = true → a.notification_sent = false →
      s2.screenshots.find? (fun x => x.id = a.screenshot_id) = some sc →
      s2.targets.find? (fun x => x.id = sc.url_id) = some t →
      (⟨a.id, t.id⟩ : NotificationRow) ∈ getUnsentSaleNotificationsS s2) ∧
    (∀ (s2 : Store) (n : NotificationRow),
      getUsersMonitoringUrlS s2 n.url_id ≠ [] →
      (dispatchOne oracle s2 n).2
        = (getUsersMonitoringUrlS s2 n.url_id).map
            (fun u => (n.aid, u.email)) ∧
      (dispatchOne oracle s2 n).2 ≠ []) := by
  refine ⟨⟨?_, ?_, rfl, rfl, runCycle_notProduct_target now uid path out s j
    hparse hnp⟩, ?_, ?_⟩
  · simp only [runCycle, hparse]
    rw [if_neg (by rw [hnp]; simp)]
    rfl
  · simp only [mkAnalysisRow]
    exact hnp
  · intro s2 a sc t ha hsale hsent hfsc hft
    refine List.mem_filterMap.mpr ⟨a, ha, ?_⟩
    simp [hsale, hsent, hfsc, hft]
  · intro s2 n hne
    have hie : (getUsersMonitoringUrlS s2 n.url_id).isEmpty = false := by
      simpa [List.isEmpty_iff] using hne
    constructor
    · simp only [dispatchOne, hie]
      rw [if_neg (by simp)]
      split <;> rfl
    · simp only [dispatchOne, hie]
      rw [if_neg (by simp)]
      split
      · simpa using hne
      · simpa using hne

/-- The classifier output of a not-a-product-page sale object, and its
parse. -/
def notProductOut : List Char :=
  "\x7b\"isProductPage\": false, \"isOnSale\": true\x7d".toList

/-- Witness for claim C10: a not-a-product-page output with
`isOnSale: true` stores a qualifying analysis row, the row enters the
unsent-notification selection, and the single subscriber receives a send
attempt. -/
theorem c10_not_product_page_notifies_witness :
    ((runCycle 1 (CycleOutcome.classifierOut "p" notProductOut)
        0 freshStore).1.analyses
      = [mkAnalysisRow 0 0
          (Json.jobj [("isProductPage".toList, Json.jbool false),
                      ("isOnSale".toList, Json.jbool true)])]) ∧
    (⟨0, 0⟩ : NotificationRow) ∈ getUnsentSaleNotificationsS dispatchStore ∧
    (dispatchOne (fun _ _ => true) dispatchStore ⟨0, 0⟩).2 ≠ [] :=
  ⟨by
    have h := (c10_not_product_page_notifies 1 0 "p" notProductOut freshStore
      (Json.jobj [("isProductPage".toList, Json.jbool false),
                  ("isOnSale".toList, Json.jbool true)])
      (fun _ _ => true) rfl rfl).1.1
    simpa [freshStore] using h,
   (c10_not_product_page_notifies 1 0 "p" notProductOut freshStore
      (Json.jobj [("isProductPage".toList, Json.jbool false),
                  ("isOnSale".toList, Json.jbool true)])
      (fun _ _ => true) rfl rfl).2.1 dispatchStore
      dispatchRow ⟨0, 0, "p", true⟩
      (initialTarget 0 "u" 6 0) (List.mem_singleton.mpr rfl) rfl rfl
      rfl rfl,
   ((c10_not_product_page_notifies 1 0 "p" notProductOut freshStore
      (Json.jobj [("isProductPage".toList, Json.jbool false),
                  ("isOnSale".toList, Json.jbool true)])
      (fun _ _ => true) rfl rfl).2.2 dispatchStore ⟨0, 0⟩ (by decide)).2⟩

/-! ## Claim C2 -/

/-- `indexOf` over a list whose prefix misses the searched character. -/
theorem jsIndexOf_append_cons (pre rest : List Char) (c : Char)
    (h : c ∉ pre) :
    jsIndexOf (pre ++ c :: rest) c = (pre.length : Int) := by
  induction pre with
  | nil => simp [jsIndexOf]
  | cons d ps ih =>
      have hd : d ≠ c := fun hdc => h (hdc ▸ List.mem_cons_self d ps)
      have hps : c ∉ ps := fun hc => h (List.mem_cons_of_mem d hc)
      have ihv := ih hps
      simp only [List.cons_append, jsIndexOf, List.append_eq, if_neg hd, ihv]
      have hne : ((ps.length : Int)) ≠ -1 := by omega
      rw [if_neg hne]
      push_cast [List.length_cons]
      ring

/-- Clamping a natural index. -/
theorem clampIdx_natCast (len n : Nat) : clampIdx len (n : Int) = min n len := by
  simp [clampIdx]

/-- The balanced-substring scan across a brace-free segment closes at the
segment's terminating `rbrace`. -/
theorem scanBalanced_flat (interior : List Char) :
    ∀ (suf acc : List Char), lbrace ∉ interior → rbrace ∉ interior →
    scanBalanced 1 acc (interior ++ rbrace :: suf)
      = some (acc ++ interior ++ [rbrace]) := by
  induction interior with
  | nil =>
      intro suf acc _ _
      have hrl : rbrace ≠ lbrace := by decide
      simp [scanBalanced, hrl]
  | cons c cs ih =>
      intro suf acc hl hr
      have hcl : c ≠ lbrace := fun hc => hl (hc ▸ List.mem_cons_self c cs)
      have hcr : c ≠ rbrace := fun hc => hr (hc ▸ List.mem_cons_self c cs)
      have hl' : lbrace ∉ cs := fun hc => hl (List.mem_cons_of_mem c hc)
      have hr' : rbrace ∉ cs := fun hc => hr (List.mem_cons_of_mem c hc)
      simp only [List.cons_append, scanBalanced, List.append_eq,
        if_neg hcl, if_neg hcr]
      rw [ih suf (acc ++ [c]) hl' hr']
      simp

/-- `dropWhile` up to the first occurrence of the searched character. -/
theorem dropWhile_to_char (pre rest : List Char) (c : Char) (h : c ∉ pre) :
    (pre ++ c :: rest).dropWhile (fun d => d ≠ c) = c :: rest := by
  induction pre with
  | nil =>
      simp only [List.nil_append, List.dropWhile_cons]
      rw [if_neg (by simp)]
  | cons d ps ih =>
      have hd : d ≠ c := fun hdc => h (hdc ▸ List.mem_cons_self d ps)
      have hps : c ∉ ps := fun hc => h (List.mem_cons_of_mem d hc)
      simp only [List.cons_append, List.dropWhile_cons]
      rw [if_pos (by simp [hd])]
      exact ih hps

/-- The code's JSON-text selection on a trimmed output consisting of a
brace-free prefix, a flat object, and an arbitrary suffix: exactly the
object is selected. -/
theorem codeExtract_flat (out pre interior suf : List Char)
    (htrim : jsTrim out = pre ++ lbrace :: (interior ++ rbrace :: suf))
    (hp1 : lbrace ∉ pre) (hp2 : rbrace ∉ pre)
    (hi2 : rbrace ∉ interior) :
    codeExtract out = lbrace :: (interior ++ [rbrace]) := by
  have hlr : lbrace ≠ rbrace := by decide
  have hstart : jsIndexOf (jsTrim out) lbrace = (pre.length : Int) := by
    rw [htrim]
    exact jsIndexOf_append_cons pre _ lbrace hp1
  have hre : pre ++ lbrace :: (interior ++ rbrace :: suf)
      = (pre ++ lbrace :: interior) ++ rbrace :: suf := by
    simp
  have hnotr : rbrace ∉ pre ++ lbrace :: interior := by
    intro hmem
    rcases List.mem_append.mp hmem with h | h
    · exact hp2 h
    · rcases List.mem_cons.mp h with h | h
      · exact hlr h.symm
      · exact hi2 h
  have hend : jsIndexOf (jsTrim out) rbrace
      = ((pre.length + 1 + interior.length : Nat) : Int) := by
    rw [htrim, hre]
    have hidx := jsIndexOf_append_cons (pre ++ lbrace :: interior) suf
      rbrace hnotr
    rw [hidx]
    push_cast [List.length_append, List.length_cons]
    ring
  have hlen : (jsTrim out).length
      = pre.length + interior.length + 2 + suf.length := by
    rw [htrim]
    simp only [List.length_append, List.length_cons]
    omega
  unfold codeExtract
  rw [hstart, hend]
  rw [if_pos ⟨by omega, by omega⟩]
  have hb : ((pre.length + 1 + interior.length : Nat) : Int) + 1
      = ((pre.length + interior.length + 2 : Nat) : Int) := by
    push_cast
    ring
  rw [hb]
  unfold jsSubstring
  rw [clampIdx_natCast, clampIdx_natCast]
  rw [hlen]
  have h1 : min pre.length (pre.length + interior.length + 2 + suf.length)
      = pre.length := by omega
  have h2 : min (pre.length + interior.length + 2)
      (pre.length + interior.length + 2 + suf.length)
      = pre.length + interior.length + 2 := by omega
  rw [h1, h2]
  have h3 : min pre.length (pre.length + interior.length + 2)
      = pre.length := by omega
  have h4 : max pre.length (pre.length + interior.length + 2)
      = pre.length + interior.length + 2 := by omega
  rw [h3, h4]
  rw [htrim]
  rw [List.drop_left]
  have h5 : pre.length + interior.length + 2 - pre.length
      = interior.length + 2 := by omega
  rw [h5]
  have h6 : lbrace :: (interior ++ rbrace :: suf)
      = (lbrace :: (interior ++ [rbrace])) ++ suf := by
    simp
  rw [h6]
  have h7 : interior.length + 2
      = (lbrace :: (interior ++ [rbrace])).length := by
    simp only [List.length_cons, List.length_append, List.length_nil]
  rw [h7, List.take_left]

/-- Claim C2 as stated is false: for an output whose first balanced
object contains a nested object, the spec's extraction yields the whole
balanced object while the code truncates at the first closing brace, and
parsing the truncated text fails — the step raises a
`ClassificationError` instead of producing the balanced object. -/
theorem c2_counterexample :
    specExtractBalanced
        ("Raw Response: \x7b\"a\": \x7b\"b\": 1\x7d\x7d junk".toList)
      = some ("\x7b\"a\": \x7b\"b\": 1\x7d\x7d".toList) ∧
    codeExtract ("Raw Response: \x7b\"a\": \x7b\"b\": 1\x7d\x7d junk".toList)
      = "\x7b\"a\": \x7b\"b\": 1\x7d".toList ∧
    classifyParse ("Raw Response: \x7b\"a\": \x7b\"b\": 1\x7d\x7d junk".toList)
      = none := ⟨rfl, rfl, rfl⟩

/-- Claim C2, amended: the step selects the substring from the first
opening brace through the first closing brace of the trimmed output and
parses that.  When the trimmed output is a brace-free prefix followed by
a flat object (one containing no nested braces) and arbitrary junk, the
selected text is exactly that object — which is also the first balanced
substring — and the step succeeds or fails exactly as `JSON.parse` does
on the object text.  (Outputs whose first balanced object nests further
objects are truncated and fail; see the counterexample.) -/
theorem c2_extraction_amended (out pre interior suf : List Char)
    (htrim : jsTrim out = pre ++ lbrace :: (interior ++ rbrace :: suf))
    (hp1 : lbrace ∉ pre) (hp2 : rbrace ∉ pre)
    (hi1 : lbrace ∉ interior) (hi2 : rbrace ∉ interior) :
    codeExtract out = lbrace :: (interior ++ [rbrace]) ∧
    specExtractBalanced (jsTrim out)
      = some (lbrace :: (interior ++ [rbrace])) ∧
    classifyParse out = parseJson (lbrace :: (interior ++ [rbrace])) := by
  have hmain := codeExtract_flat out pre interior suf htrim hp1 hp2 hi2
  refine ⟨hmain, ?_, ?_⟩
  · unfold specExtractBalanced
    rw [htrim, dropWhile_to_char pre _ lbrace hp1]
    have hs : scanBalanced 0 [] (lbrace :: (interior ++ rbrace :: suf))
        = scanBalanced 1 [lbrace] (interior ++ rbrace :: suf) := by
      simp [scanBalanced]
    rw [hs, scanBalanced_flat interior suf [lbrace] hi1 hi2]
    simp
  · unfold classifyParse
    rw [hmain]

/-- Witness for the amended claim C2 at the spec's own scenario output:
the prefixed flat object is extracted exactly, matches the balanced
extraction, and parses. -/
theorem c2_extraction_amended_witness :
    codeExtract ("Raw Response: \x7b\"isProductPage\": true\x7d junk".toList)
      = lbrace :: ("\"isProductPage\": true".toList ++ [rbrace]) ∧
    specExtractBalanced
        (jsTrim ("Raw Response: \x7b\"isProductPage\": true\x7d junk".toList))
      = some (lbrace :: ("\"isProductPage\": true".toList ++ [rbrace])) ∧
    classifyParse ("Raw Response: \x7b\"isProductPage\": true\x7d junk".toList)
      = parseJson (lbrace :: ("\"isProductPage\": true".toList ++ [rbrace])) :=
  c2_extraction_amended
    ("Raw Response: \x7b\"isProductPage\": true\x7d junk".toList)
    ("Raw Response: ".toList) ("\"isProductPage\": true".toList)
    (" junk".toList) (by decide) (by decide) (by decide) (by decide)
    (by decide)

end SaleBackend
